import Mathlib

/-!
# Verification of the schema-ui cursor subsystem

Shallow embedding of the cursor subsystem of the `schema-ui` repository:
the pagination normalizer (`genericPaginationInfoExtractor` and helpers),
the in-memory `ValueCursor` (select pipeline, filter/sort/search mutators)
and the agent-backed `EndpointCursor` (`select`, `all`), together with
theorems settling the specification claims about them.

JavaScript dynamic values are embedded as the inductive `JsVal`; absent
object properties (JS `undefined`) are embedded as `Option.none` at
lookup sites.  Machine/JS numbers appearing in the relevant code paths are
integers, embedded as `Int`.
-/

/-- Embedding of a JSON/JavaScript value (the payloads the cursor code
manipulates).  `null` is a value of its own; an absent property
(JS `undefined`) is represented by `Option.none` at lookup sites. -/
inductive JsVal where
  | null : JsVal
  | bool (b : Bool) : JsVal
  | num (n : Int) : JsVal
  | str (s : String) : JsVal
  | arr (elems : List JsVal) : JsVal
  | obj (fields : List (String × JsVal)) : JsVal

namespace JsVal

/-- `v == null` (loose equality): true exactly for `null`/`undefined`;
the embedding reaches this test only on present values, so on `null`. -/
def isNull : JsVal → Bool
  | .null => true
  | _ => false

/-- `_.isFinite` of lodash: true exactly for (finite) numbers.  All numbers
of the embedding are finite integers. -/
def isFiniteJs : JsVal → Bool
  | .num _ => true
  | _ => false

/-- `_.isArray`: true exactly for arrays. -/
def isArrayJs : JsVal → Bool
  | .arr _ => true
  | _ => false

/-- Own-property lookup on an object field list: first binding wins. -/
def objLookup (fields : List (String × JsVal)) (k : String) : Option JsVal :=
  (fields.find? (fun p => p.1 == k)).map (·.2)

/-- JS property read `data[key]`.  Reading a property of `null` (or of
`undefined`) throws a `TypeError`, embedded as `Except.error`; reading an
absent property yields `undefined`, embedded as `none`; primitives other
than `null` have no own properties named by the pagination keys. -/
def jsIndex : JsVal → String → Except Unit (Option JsVal)
  | .null, _ => .error ()
  | .obj fields, k => .ok (objLookup fields k)
  | _, _ => .ok none

/-- `_.isEmpty`: true for `null`, values without size (numbers, booleans),
empty strings, empty arrays and objects without own keys. -/
def isEmptyJs : JsVal → Bool
  | .null => true
  | .bool _ => true
  | .num _ => true
  | .str s => s.isEmpty
  | .arr xs => xs.isEmpty
  | .obj fields => fields.isEmpty

end JsVal

open JsVal

mutual

/-- `String(v)` string conversion, as used by the filter and search code. -/
def JsVal.jsToString : JsVal → String
  | .null => "null"
  | .bool true => "true"
  | .bool false => "false"
  | .num n => toString n
  | .str s => s
  | .arr xs => String.intercalate "," (JsVal.jsToStringList xs)
  | .obj _ => "[object Object]"

/-- String conversion mapped over array elements. -/
def JsVal.jsToStringList : List JsVal → List String
  | [] => []
  | x :: xs => JsVal.jsToString x :: JsVal.jsToStringList xs

end

mutual

/-- JS strict equality `===` / SameValueZero as used by `_.includes`,
embedded structurally (JS compares objects and arrays by reference; the
values compared by the cursor's filter code are primitives). -/
def JsVal.beq : JsVal → JsVal → Bool
  | .null, .null => true
  | .bool a, .bool b => a == b
  | .num a, .num b => a == b
  | .str a, .str b => a == b
  | .arr xs, .arr ys => JsVal.beqList xs ys
  | .obj fs, .obj gs => JsVal.beqFields fs gs
  | _, _ => false

/-- Element-wise `JsVal.beq` on arrays. -/
def JsVal.beqList : List JsVal → List JsVal → Bool
  | [], [] => true
  | x :: xs, y :: ys => JsVal.beq x y && JsVal.beqList xs ys
  | _, _ => false

/-- Field-wise `JsVal.beq` on objects. -/
def JsVal.beqFields : List (String × JsVal) → List (String × JsVal) → Bool
  | [], [] => true
  | (k, v) :: fs, (l, w) :: gs => k == l && JsVal.beq v w && JsVal.beqFields fs gs
  | _, _ => false

end

/-- Lowercasing, character by character (`.toLowerCase()` on the ASCII
identifiers and keys handled by the cursor code). -/
def lowerStr (s : String) : String :=
  String.mk (s.toList.map Char.toLower)

/-- Splits a camelCase identifier into its words (split before every
uppercase character), the word model lodash's casing helpers use on the
identifier-shaped pagination keys. -/
def camelWords (s : String) : List String :=
  let step := fun (acc : List (List Char)) (c : Char) =>
    if c.isUpper then [c] :: acc
    else match acc with
      | [] => [[c]]
      | w :: ws => (w ++ [c]) :: ws
  ((s.toList.foldl step []).reverse).map (fun w => String.mk w)

/-- `_.snakeCase`: lowercased words joined by underscores. -/
def lodashSnakeCase (s : String) : String :=
  String.intercalate "_" ((camelWords s).map lowerStr)

/-- `_.kebabCase`: lowercased words joined by dashes. -/
def lodashKebabCase (s : String) : String :=
  String.intercalate "-" ((camelWords s).map lowerStr)

example : lodashSnakeCase "totalCount" = "total_count" := by decide
example : lodashKebabCase "numPages" = "num-pages" := by decide

/-- The partially filled `PaginationInfo` accumulator
(`Partial<PaginationInfo<T>>` in the source).  Each field holds the raw
value last stored by `checkDataKey`; `none` stands for a field that is
still `undefined` or was set to `null` (indistinguishable to every
operation the source performs on it). -/
structure PagAccum where
  count : Option JsVal := none
  totalPages : Option JsVal := none
  items : Option JsVal := none

/-- `_.isFinite(field)` on an accumulator field. -/
def isFiniteAcc : Option JsVal → Bool
  | some v => isFiniteJs v
  | none => false

/-- `paginationCollectionCountProperties` (source constant). -/
def paginationCollectionCountProperties : List String :=
  ["totalCount", "itemCount"]

/-- `paginationPageCountProperties` (source constant). -/
def paginationPageCountProperties : List String :=
  ["pages", "numPages", "length", "size"]

/-- `paginationPageItemsProperties` (source constant). -/
def paginationPageItemsProperties : List String :=
  ["items", "data", "collection"]

/-- `paginationMetaKeys` (source constant). -/
def paginationMetaKeys : List String :=
  ["pagination", "meta"]

/-- Loop body of `checkDataKey(validator, data, key)`, one iteration per
candidate spelling:

```
for (let testable of [key, _.snakeCase(key), _.kebabCase(key)]) {
    if (data[key] != null && validator(data[key])) {
        return data[key];
    }
}
return null;
```

Note that the loop body reads `data[key]`, not `data[testable]` — the
embedding preserves this verbatim (the testable at the head of the list is
ignored); the property read throws on a `null` data object. -/
def checkDataKeyGo (validator : JsVal → Bool) (data : JsVal) (key : String) :
    List String → Except Unit (Option JsVal)
  | [] => .ok none
  | _testable :: rest => do
    let v ← jsIndex data key
    match v with
    | some x =>
      if !x.isNull && validator x then .ok (some x)
      else checkDataKeyGo validator data key rest
    | none => checkDataKeyGo validator data key rest

/-- `checkDataKey` run over its three candidate spellings. -/
def checkDataKey (validator : JsVal → Bool) (data : JsVal) (key : String) :
    Except Unit (Option JsVal) :=
  checkDataKeyGo validator data key [key, lodashSnakeCase key, lodashKebabCase key]

/-- One field loop of `genericPaginationInfoKeyExtractor`:

```
for (let key of keys) {
    if (breakTest(field)) { break; }
    field = checkDataKey(validator, data, key);
}
```

The break test the source uses is `_.isFinite` for all three fields,
including the `items` loop (whose stored values are arrays). -/
def extractFieldLoop (breakTest : Option JsVal → Bool) (validator : JsVal → Bool)
    (data : JsVal) (field : Option JsVal) :
    List String → Except Unit (Option JsVal)
  | [] => .ok field
  | key :: rest =>
    if breakTest field then .ok field
    else do
      let v ← checkDataKey validator data key
      extractFieldLoop breakTest validator data v rest

/-- Embedding of `genericPaginationInfoKeyExtractor(partial, data)`:
fills `count` from `paginationCollectionCountProperties` (validator
`_.isFinite`), `totalPages` from `paginationPageCountProperties`
(`_.isFinite`) and `items` from `paginationPageItemsProperties`
(validator `_.isArray`, break test still `_.isFinite`). -/
def genericPaginationInfoKeyExtractor (acc : PagAccum) (data : JsVal) :
    Except Unit PagAccum := do
  let count ← extractFieldLoop isFiniteAcc isFiniteJs data acc.count
    paginationCollectionCountProperties
  let totalPages ← extractFieldLoop isFiniteAcc isFiniteJs data acc.totalPages
    paginationPageCountProperties
  let items ← extractFieldLoop isFiniteAcc isArrayJs data acc.items
    paginationPageItemsProperties
  .ok { count := count, totalPages := totalPages, items := items }

/-- An agent response: `{ body, headers }`. -/
structure SchemaAgentResponse where
  body : JsVal
  headers : JsVal

/-- `_.findKey(body, (v, k) => _.includes(paginationMetaKeys, k.toLowerCase()))`:
first own key of the body whose lowercased name is `pagination` or `meta`. -/
def findMetaKey : JsVal → Option String
  | .obj fields =>
    ((fields.find? (fun p => paginationMetaKeys.contains (lowerStr p.1))).map (·.1))
  | _ => none

/-- Embedding of `genericPaginationInfoExtractor(response)`: runs the key
extractor over the body top level, then (unless empty) the headers, then
the value of the first `pagination`/`meta` body key (the `!!usable` truth
test also rejects an empty-string key). -/
def genericPaginationInfoExtractor (response : SchemaAgentResponse) :
    Except Unit PagAccum := do
  let r1 ← genericPaginationInfoKeyExtractor {} response.body
  let r2 ←
    if !(JsVal.isEmptyJs response.headers) then
      genericPaginationInfoKeyExtractor r1 response.headers
    else
      .ok r1
  match findMetaKey response.body with
  | some usable =>
    if usable ≠ "" then do
      let sub ← jsIndex response.body usable
      genericPaginationInfoKeyExtractor r2 (sub.getD .null)
    else
      .ok r2
  | none => .ok r2

/-! ## Claim theorems for the pagination normalizer -/

/-- The response body of the spec's normalizer example:
`{data: [1,2,3], meta: {total_count: 10, num_pages: 4}}`. -/
def c1Body : JsVal :=
  .obj [("data", .arr [.num 1, .num 2, .num 3]),
        ("meta", .obj [("total_count", .num 10), ("num_pages", .num 4)])]

/-- C1: the claim states that for the body
`{data: [1,2,3], meta: {total_count: 10, num_pages: 4}}` (and empty
headers) `genericPaginationInfoExtractor` returns
`{items: [1,2,3], count: 10, totalPages: 4}`.  The code instead leaves all
three fields null: `checkDataKey` reads `data[key]` instead of
`data[testable]`, so the snake_case spellings `total_count`/`num_pages`
are never looked up, and the `items` loop's break test applies
`_.isFinite` to the array found under `data`, so the final candidate
`collection` overwrites it with null. -/
theorem genericPaginationInfoExtractor_example_all_null :
    genericPaginationInfoExtractor ⟨c1Body, .obj []⟩ =
      .ok { count := none, totalPages := none, items := none } := by
  rfl

/-- C2: the claim states that a field set by an earlier candidate key is
never overridden by a later candidate key.  For the single-source body
`{data: [1]}`, the `data` candidate does find the array, yet the final
value of `items` after the key-extractor pass is null: the later candidate
`collection` overwrote the already-set field, because the loop's break
test applies `_.isFinite` to an array (always false). -/
theorem genericPaginationInfoKeyExtractor_overrides_set_items :
    checkDataKey isArrayJs (.obj [("data", .arr [.num 1])]) "data" =
        .ok (some (.arr [.num 1])) ∧
      (genericPaginationInfoKeyExtractor {} (.obj [("data", .arr [.num 1])])).map
          (fun a => a.items) =
        .ok none := by
  exact ⟨rfl, rfl⟩

/-- C3: the claim states that when the verbatim form of a candidate key is
absent, `checkDataKey` accepts the value stored under its snake_case form.
For the data object `{total_count: 10}` and key `totalCount` the code
returns null instead of 10: the loop iterates over the three spellings but
its body always reads `data[key]`, so only the verbatim form is ever
consulted. -/
theorem checkDataKey_never_reads_snake_case :
    checkDataKey isFiniteJs (.obj [("total_count", .num 10)]) "totalCount" =
      .ok none := by
  rfl

/-! ## Descriptor model and loading state

`cursor.ts`, `filterable-cursor.ts`, `sortable-cursor.ts` and
`columnized-cursor.ts` are not among the provided sources; the data they
declare is modelled from the spec where noted. -/

/-- Modelled from the spec: `CursorLoadingState` is declared in the missing
`cursor.ts`.  The spec orders `Uninitialized < Loading < Ready` and adds a
terminal `Empty` and an `Error` state; only the position of `Uninitialized`
at the bottom of the numeric enum is needed by the embedded code. -/
inductive CursorLoadingState where
  | Uninitialized
  | Loading
  | Ready
  | Empty
  | Error
deriving DecidableEq

/-- Numeric value of the loading-state enum member, for the source's
`this.loadingState > CursorLoadingState.Uninitialized` comparison. -/
def CursorLoadingState.toNat : CursorLoadingState → Nat
  | .Uninitialized => 0
  | .Loading => 1
  | .Ready => 2
  | .Empty => 3
  | .Error => 4

/-- Modelled from the spec: `CollectionFilterOperator` is declared in the
missing `filterable-cursor.ts`; the spec lists these ten operators, and
`applyFilter` in `value-cursor.ts` switches over exactly them. -/
inductive CollectionFilterOperator where
  | Contains
  | NotContains
  | Equals
  | NotEquals
  | LessThan
  | LessThanOrEquals
  | GreaterThan
  | GreaterThanOrEquals
  | In
  | NotIn
deriving DecidableEq

/-- `{path: JSON-pointer string, operator, value}`. -/
structure CollectionFilterDescriptor where
  path : String
  operator : CollectionFilterOperator
  value : JsVal

/-- `{path: JSON-pointer string, direction}`.  Modelled from the spec:
`SortingDirection` lives in the missing `sortable-cursor.ts`; the source
indexes `['asc','desc'][x.direction]`, so `Ascending = 0`,
`Descending = 1`. -/
structure CollectionSortDescriptor where
  path : String
  direction : Nat

/-- Column definition: `{name, path?, filterable, sortable}` (`path`
defaults to `/` + capitalized `name` when absent or falsy). -/
structure CursorColumnDefinition where
  name : String
  path : Option String := none
  filterable : Bool := false
  sortable : Bool := false

/-! ## Filter/sort engine (`value-cursor.ts`, bottom half) -/

/-- Substring test: `hay.indexOf(needle) >= 0`. -/
def strContains (hay needle : String) : Bool :=
  hay.toList.tails.any (fun t => needle.toList.isPrefixOf t)

/-- Token unescaping of the `json-pointer` library
(`.replace(/~1/g, '/').replace(/~0/g, '~')`), as a single left-to-right
scan over the characters. -/
def jsonPointerUnescapeChars : List Char → List Char
  | [] => []
  | '~' :: '1' :: rest => '/' :: jsonPointerUnescapeChars rest
  | '~' :: '0' :: rest => '~' :: jsonPointerUnescapeChars rest
  | c :: rest => c :: jsonPointerUnescapeChars rest

/-- `split` on a separator character (`pointer.substring(1).split('/')`):
the empty input yields one empty segment, as in JS. -/
def splitChars (sep : Char) : List Char → List (List Char)
  | [] => [[]]
  | c :: rest =>
    let r := splitChars sep rest
    if c = sep then [] :: r
    else
      match r with
      | [] => [[c]]
      | w :: ws => (c :: w) :: ws

/-- `api.parse` of the `json-pointer` library: the empty pointer has no
tokens; a non-empty pointer not starting with `/` throws
`Invalid JSON pointer`; otherwise the `/`-separated segments after the
leading slash, unescaped. -/
def jsonPointerParse (pointer : String) : Except String (List String) :=
  if pointer = "" then .ok []
  else
    match pointer.toList with
    | '/' :: rest =>
      .ok ((splitChars '/' rest).map (fun cs => String.mk (jsonPointerUnescapeChars cs)))
    | _ => .error ("Invalid JSON pointer: " ++ pointer)

/-- One step of `api.get`'s walk:
`if (!(typeof obj == 'object' && tok in obj)) throw new Error('Invalid
reference token: ' + tok); obj = obj[tok];`.  Own keys of an object, the
(canonical) indices and `length` of an array; on `null` the `in` test
itself throws a `TypeError`; any other value fails the `typeof` test and
throws the reference-token error. -/
def jsonPointerStep (v : JsVal) (tok : String) : Except String JsVal :=
  match v with
  | .obj fs =>
    match objLookup fs tok with
    | some w => .ok w
    | none => .error ("Invalid reference token: " ++ tok)
  | .arr xs =>
    if tok = "length" then .ok (.num xs.length)
    else
      match tok.toNat? with
      | some i => if i < xs.length then .ok (xs.getD i .null) else .error ("Invalid reference token: " ++ tok)
      | none => .error ("Invalid reference token: " ++ tok)
  | .null => .error "TypeError"
  | _ => .error ("Invalid reference token: " ++ tok)

/-- Resolution of a JSON pointer (`pointer.get` of the external
`json-pointer` library) against an embedded value: the parsed tokens walk
the value left to right; the empty pointer is the value itself; a
malformed pointer or an unresolvable token throws (`Except.error`). -/
def pointerGet (x : JsVal) (path : String) : Except String JsVal := do
  let toks ← jsonPointerParse path
  toks.foldlM jsonPointerStep x

/-- `_.includes(array, value)` membership (SameValueZero). -/
def listIncludes (vs : List JsVal) (v : JsVal) : Bool :=
  vs.any (fun w => JsVal.beq w v)

/-- `val.length` for the length-comparison branches. -/
def jsLength : JsVal → Nat
  | .str s => s.length
  | .arr xs => xs.length
  | _ => 0

/-- Embedding of `applyFilter(filter, val)` (`value-cursor.ts` lines
451-506).  The numeric relational branches are embedded for numeric filter
values (a non-numeric `filter.value` makes the JS comparison coerce, a
case no code path of the repository exercises); the default switch case
returns `undefined`, which `_.every` treats as false. -/
def applyFilter (filter : CollectionFilterDescriptor) (val : JsVal) : Bool :=
  match filter.operator with
  | .Contains => strContains (jsToString val) (jsToString filter.value)
  | .NotContains => !(strContains (jsToString val) (jsToString filter.value))
  | .Equals => jsToString val == jsToString filter.value
  | .NotEquals => !(jsToString val == jsToString filter.value)
  | .LessThan =>
    match val, filter.value with
    | .num n, .num m => n < m
    | .str _, .num m => (jsLength val : Int) < m
    | .arr _, .num m => (jsLength val : Int) < m
    | _, _ => false
  | .LessThanOrEquals =>
    match val, filter.value with
    | .num n, .num m => n ≤ m
    | .str _, .num m => (jsLength val : Int) ≤ m
    | .arr _, .num m => (jsLength val : Int) ≤ m
    | _, _ => false
  | .GreaterThan =>
    match val, filter.value with
    | .num n, .num m => n > m
    | .str _, .num m => (jsLength val : Int) > m
    | .arr _, .num m => (jsLength val : Int) > m
    | _, _ => false
  | .GreaterThanOrEquals =>
    match val, filter.value with
    | .num n, .num m => n ≥ m
    | .str _, .num m => (jsLength val : Int) ≥ m
    | .arr _, .num m => (jsLength val : Int) ≥ m
    | _, _ => false
  | .In =>
    match filter.value with
    | .arr vs => listIncludes vs val
    | _ => jsToString val == jsToString filter.value
  | .NotIn =>
    match filter.value with
    | .arr vs => !(listIncludes vs val)
    | _ => jsToString val == jsToString filter.value

/-- `_.every(filters, f => applyFilter(f, pointer.get(x, f.path)))`:
filters are evaluated left to right, stopping at the first `false`; a
pointer resolution reached along the way may throw. -/
def elementPasses (x : JsVal) : List CollectionFilterDescriptor → Except String Bool
  | [] => .ok true
  | f :: rest => do
    let v ← pointerGet x f.path
    if applyFilter f v then elementPasses x rest else .ok false

/-- `filterCollectionBy(collection, filters)`: keep an element iff every
filter accepts the value its pointer resolves to; elements are visited in
order and a pointer that fails to resolve throws out of the whole call. -/
def filterCollectionBy (collection : List JsVal)
    (filters : List CollectionFilterDescriptor) : Except String (List JsVal) :=
  match collection with
  | [] => .ok []
  | x :: xs => do
    let keep ← elementPasses x filters
    let rest ← filterCollectionBy xs filters
    .ok (if keep then x :: rest else rest)

/-- `_.trimStart(path, '/')`. -/
def trimStartSlashes (s : String) : String :=
  String.mk (s.toList.dropWhile (fun c => c == '/'))

/-- Property access by the (slash-trimmed) sorter path, lodash `_.get`
with a `.`-separated path; an absent property is `undefined` (`none`). -/
def lodashGet (x : JsVal) (path : String) : Option JsVal :=
  (path.splitOn ".").foldl
    (fun v tok =>
      match v with
      | some (.obj fs) => objLookup fs tok
      | some (.arr xs) =>
        match tok.toNat? with
        | some i => xs.get? i
        | none => none
      | _ => none)
    (some x)

/-- Single-key value comparison of the ordering (lodash
`compareAscending`), embedded for the value shapes the cursor sorts on:
numbers compare numerically, other present values by their string form,
and an absent (`undefined`) value sorts after any present one. -/
def jsCmp (a b : Option JsVal) : Ordering :=
  match a, b with
  | none, none => .eq
  | none, some _ => .gt
  | some _, none => .lt
  | some x, some y =>
    match x, y with
    | .num n, .num m => compare n m
    | _, _ => compare (jsToString x) (jsToString y)

/-- Multi-key comparison of `_.orderBy`: keys apply left to right, a
descending key (`direction = 1`, `'desc'`) reverses its comparison, ties
fall through to the next key. -/
def multiCmp (sorters : List CollectionSortDescriptor) (a b : JsVal) : Ordering :=
  match sorters with
  | [] => .eq
  | s :: rest =>
    let c := jsCmp (lodashGet a (trimStartSlashes s.path)) (lodashGet b (trimStartSlashes s.path))
    let c := if s.direction = 1 then c.swap else c
    match c with
    | .eq => multiCmp rest a b
    | o => o

/-- Stable insertion of `x` after every already-placed element that is
less-or-equal, used to embed the stable ordering of `_.orderBy`. -/
def stableInsert (le : JsVal → JsVal → Bool) (x : JsVal) : List JsVal → List JsVal
  | [] => [x]
  | y :: ys => if le y x then y :: stableInsert le x ys else x :: y :: ys

/-- Stable sort by a boolean total preorder (elements are inserted in
original order, each after its ties). -/
def stableSortBy (le : JsVal → JsVal → Bool) (l : List JsVal) : List JsVal :=
  l.foldl (fun acc x => stableInsert le x acc) []

/-- `sortCollectionBy(collection, sorters)`: stable multi-key ordering
(`_.orderBy` keeps the original relative order of ties). -/
def sortCollectionBy (collection : List JsVal)
    (sorters : List CollectionSortDescriptor) : List JsVal :=
  stableSortBy (fun a b => !(multiCmp sorters a b == .gt)) collection

/-! ## ValueCursor (`value-cursor.ts`) -/

/-- The mutable fields of a `ValueCursor<T>` over embedded JS elements,
with the source's initializers as defaults.  Lists are modelled by their
contents (the aliasing `filterBy`/`sortBy` produce is visible through the
duplicated contents they leave behind). -/
structure ValueCursorState where
  wrapped : List JsVal
  limit : Nat := 40
  current : Nat := 1
  count : Nat := 0
  totalPages : Nat := 1
  items : List JsVal := []
  terms : Option String := none
  columns : List CursorColumnDefinition := []
  filters : List CollectionFilterDescriptor := []
  sorters : List CollectionSortDescriptor := []
  loadingState : CursorLoadingState := .Uninitialized
  isSearchApplied : Bool := true
  areFiltersApplied : Bool := true
  areSortersApplied : Bool := true
  autoReload : Bool := false

/-- `_.isEmpty(this.terms)` on the terms field (`undefined` and the empty
string are empty). -/
def termsIsEmpty : Option String → Bool
  | none => true
  | some s => s.isEmpty

/-- `String(this.terms)`: stringifies `undefined` to `"undefined"`. -/
def termsToString : Option String → String
  | none => "undefined"
  | some s => s

/-- Own enumerable fields seen by `for (var key in x)` under the
`hasOwnProperty` guard: object fields, array indices; primitives have
none. -/
def jsOwnFields : JsVal → List (String × JsVal)
  | .obj fs => fs
  | .arr xs => xs.enum.map (fun p => (toString p.1, p.2))
  | _ => []

/-- The search stage of `ValueCursor.select` (lines 253-264), verbatim
including its condition:

```
if (_.isEmpty(this.terms)) {
    let qry = String(this.terms).toLowerCase();
    this._items = _.filter(this._items, x => { ...any own field contains qry... });
}
```

so the filter runs exactly when the terms are absent or empty. -/
def searchStep (terms : Option String) (collection : List JsVal) : List JsVal :=
  if termsIsEmpty terms then
    let qry := lowerStr (termsToString terms)
    collection.filter (fun x =>
      (jsOwnFields x).any (fun kv => strContains (lowerStr (jsToString kv.2)) qry))
  else collection

/-- The filtered, searched and sorted intermediate `ValueCursor.select`
computes into `this._items` (lines 248-267) before overwriting it; a
filter whose pointer fails to resolve throws out of the pipeline. -/
def ValueCursor.selectIntermediate (st : ValueCursorState) : Except String (List JsVal) := do
  let filtered ← filterCollectionBy st.wrapped st.filters
  .ok (sortCollectionBy (searchStep st.terms filtered) st.sorters)

/-- `slice(start, end)` on the backing array (`_.slice`), for the
non-negative indices produced by 1-indexed pages. -/
def listSlice (l : List JsVal) (s e : Nat) : List JsVal :=
  (l.drop s).take (e - s)

/-- Embedding of `ValueCursor.select(pageNumber)` (lines 247-277):
`_items` first becomes a fresh copy of `_wrapped` (line 248), then the
filter stage runs — if a filter's pointer fails to resolve the method
throws there, leaving `_items` as that full copy and `_current` unchanged
— then search and sort, after which the intermediate is overwritten by
`_.slice(this._wrapped, startIndex, endIndex)`; `_current` becomes the
page number and the promise resolves with the final `items`.  Pages are
1-indexed (`pageNumber ≥ 1`; the source applies JS arithmetic to smaller
numbers, which no caller produces).  Returns the state after the call and
the settled (or thrown) result. -/
def ValueCursor.select (st : ValueCursorState) (pageNumber : Nat) :
    ValueCursorState × Except String (List JsVal) :=
  match filterCollectionBy st.wrapped st.filters with
  | .error e => ({ st with items := st.wrapped }, .error e)
  | .ok filtered =>
    let _intermediate := sortCollectionBy (searchStep st.terms filtered) st.sorters
    let startIndex := (pageNumber - 1) * st.limit
    let endIndex := pageNumber * st.limit
    let items := listSlice st.wrapped startIndex endIndex
    ({ st with items := items, current := pageNumber }, .ok items)

/-- `hasPrevious()`: `current > 1`. -/
def ValueCursor.hasPrevious (st : ValueCursorState) : Bool :=
  1 < st.current

/-- `hasNext()`: `current < totalPages`. -/
def ValueCursor.hasNext (st : ValueCursorState) : Bool :=
  st.current < st.totalPages

/-- `next()`: rejects with `'This the last page!'` unless a next page
exists, else selects `current + 1`.  Returns the state after the call and
the settled promise. -/
def ValueCursor.next (st : ValueCursorState) :
    ValueCursorState × Except String (List JsVal) :=
  if !(ValueCursor.hasNext st) then (st, .error "This the last page!")
  else ValueCursor.select st (st.current + 1)

/-- `previous()`: rejects with `'This the first page!'` unless a previous
page exists, else selects `current - 1`. -/
def ValueCursor.previous (st : ValueCursorState) :
    ValueCursorState × Except String (List JsVal) :=
  if !(ValueCursor.hasPrevious st) then (st, .error "This the first page!")
  else ValueCursor.select st (st.current - 1)

/-- `refresh()`: reselect the current page. -/
def ValueCursor.refresh (st : ValueCursorState) :
    ValueCursorState × Except String (List JsVal) :=
  ValueCursor.select st st.current

/-- `search(terms, initialPage = 1)` (lines 291-295): stores the terms and
clears `isSearchApplied`; the page argument is accepted and ignored, and
no reload happens. -/
def ValueCursor.search (st : ValueCursorState) (terms : String) (_initialPage : Nat) :
    ValueCursorState :=
  { st with terms := some terms, isSearchApplied := false }

/-- The single-descriptor-or-array argument shape of the mutators. -/
def descriptorArgList {α : Type} : α ⊕ List α → List α
  | .inl f => [f]
  | .inr fs => fs

/-- Embedding of `ValueCursor.filterBy(filter, replace = false)` (lines
307-316).  The `replace` branch assigns the caller's array itself to
`_filters` and — having no `else` — falls through to the push, which
appends the (pre-spread) descriptors again, so a replacing call leaves
each supplied descriptor twice. -/
def ValueCursor.filterBy (st : ValueCursorState)
    (filter : CollectionFilterDescriptor ⊕ List CollectionFilterDescriptor)
    (replace : Bool) : ValueCursorState :=
  let base := if replace = true then descriptorArgList filter else st.filters
  { st with filters := base ++ descriptorArgList filter }

/-- Structural stand-in for the reference equality `_.includes(filters, x)`
uses on descriptor objects in `clearFilter`. -/
def filterDescBeq (a b : CollectionFilterDescriptor) : Bool :=
  a.path == b.path && decide (a.operator = b.operator) && JsVal.beq a.value b.value

/-- `clearFilter(filter)`: drop the given descriptor(s) from the list. -/
def ValueCursor.clearFilter (st : ValueCursorState)
    (filter : CollectionFilterDescriptor ⊕ List CollectionFilterDescriptor) :
    ValueCursorState :=
  let fs := descriptorArgList filter
  { st with filters := st.filters.filter (fun x => !(fs.any (fun y => filterDescBeq x y))) }

/-- `clearFilters()`: empties the filter list. -/
def ValueCursor.clearFilters (st : ValueCursorState) : ValueCursorState :=
  { st with filters := [] }

/-- Embedding of `ValueCursor.sortBy(sort, replace = false)` (lines
351-360), with the same missing-`else` fall-through as `filterBy`. -/
def ValueCursor.sortBy (st : ValueCursorState)
    (sort : CollectionSortDescriptor ⊕ List CollectionSortDescriptor)
    (replace : Bool) : ValueCursorState :=
  let base := if replace = true then descriptorArgList sort else st.sorters
  { st with sorters := base ++ descriptorArgList sort }

/-- Structural stand-in for reference equality on sort descriptors. -/
def sortDescBeq (a b : CollectionSortDescriptor) : Bool :=
  a.path == b.path && a.direction == b.direction

/-- `clearSort(sort)`: drop the given descriptor(s) from the sorter list. -/
def ValueCursor.clearSort (st : ValueCursorState)
    (sort : CollectionSortDescriptor ⊕ List CollectionSortDescriptor) :
    ValueCursorState :=
  let ss := descriptorArgList sort
  { st with sorters := st.sorters.filter (fun x => !(ss.any (fun y => sortDescBeq x y))) }

/-- Embedding of `ValueCursor.clearSorters()` (lines 380-383), verbatim:

```
public clearSorters(): this {
    this._filters = [];
    return this;
}
```

the body assigns to `_filters`, not `_sorters`. -/
def ValueCursor.clearSorters (st : ValueCursorState) : ValueCursorState :=
  { st with filters := [] }

/-- `_.upperFirst`. -/
def upperFirst (s : String) : String :=
  match s.toList with
  | [] => ""
  | c :: cs => String.mk (c.toUpper :: cs)

/-- The column's sort/filter path: `!!col.path ? col.path : '/' +
upperFirst(col.name)` (an absent or empty path falls back to the name). -/
def columnPath (col : CursorColumnDefinition) : String :=
  match col.path with
  | some p => if p.isEmpty then "/" ++ upperFirst col.name else p
  | none => "/" ++ upperFirst col.name

/-- `sortByColumn(columnName, direction)`: finds the column, throws when it
is missing (`TypeError` on `col.sortable`) or not sortable — leaving the
state unchanged — else pushes a sort descriptor. -/
def ValueCursor.sortByColumn (st : ValueCursorState) (columnName : String)
    (direction : Nat) : ValueCursorState :=
  match st.columns.find? (fun x => x.name == columnName) with
  | none => st
  | some col =>
    if !col.sortable then st
    else { st with sorters := st.sorters ++ [{ path := columnPath col, direction := direction }] }

/-- `filterByColumn(columnName, operator, value)`: the filterable analogue
(pushes through the `filters` getter onto the same list). -/
def ValueCursor.filterByColumn (st : ValueCursorState) (columnName : String)
    (operator : CollectionFilterOperator) (value : JsVal) : ValueCursorState :=
  match st.columns.find? (fun x => x.name == columnName) with
  | none => st
  | some col =>
    if !col.filterable then st
    else { st with filters := st.filters ++ [{ path := columnPath col, operator := operator, value := value }] }

/-- The `columns` setter: throws unless given an array, then stores a copy
(`value.slice()`). -/
def ValueCursor.setColumns (st : ValueCursorState)
    (value : List CursorColumnDefinition) : ValueCursorState :=
  { st with columns := value }

/-- The `limit` setter: ignores non-positive or non-integer values, else
stores the limit and reloads the current page iff `autoReload`. -/
def ValueCursor.setLimit (st : ValueCursorState) (value : Int) : ValueCursorState :=
  if value < 1 then st
  else
    let st2 := { st with limit := value.toNat }
    if st2.autoReload then (ValueCursor.select st2 st2.current).1 else st2

/-- The `current` setter: ignores non-positive or non-integer values;
with `autoReload` it selects the page, without it the set is a no-op. -/
def ValueCursor.setCurrent (st : ValueCursorState) (value : Int) : ValueCursorState :=
  if value < 1 then st
  else if st.autoReload then (ValueCursor.select st value.toNat).1 else st

/-- Assignment to the public `autoReload` field. -/
def ValueCursor.setAutoReload (st : ValueCursorState) (b : Bool) : ValueCursorState :=
  { st with autoReload := b }

/-- The `ValueCursor` constructor (lines 178-194): stores the backing
sequence, fixes `count` to its length, sets the loading state, runs the
`columns` setter and selects page 1 (with the empty initial filter list
this select cannot throw). -/
def ValueCursor.construct (wrapped : List JsVal)
    (columns : List CursorColumnDefinition) : ValueCursorState :=
  let st : ValueCursorState :=
    { wrapped := wrapped
      count := wrapped.length
      loadingState := if wrapped.length = 0 then .Empty else .Ready }
  (ValueCursor.select (ValueCursor.setColumns st columns) 1).1

/-! ## Claim theorems for the ValueCursor -/

/-- C4: the claim states that the search stage of `select` filters the
intermediate exactly when a non-empty term is active, and not otherwise.
The source's condition is `if (_.isEmpty(this.terms))`, so the opposite
happens: with the active term `"abc"` an element none of whose fields
contains `"abc"` is kept (no filtering), and with no term set the filter
does run (with query `String(undefined) = "undefined"`), dropping an
element with no matching field. -/
theorem valueCursor_search_filter_condition_inverted :
    ValueCursor.selectIntermediate
        { wrapped := [.obj [("a", .str "xyz")]], terms := some "abc" } =
      .ok [.obj [("a", .str "xyz")]] ∧
    ValueCursor.selectIntermediate { wrapped := [.obj []], terms := none } = .ok [] := by
  exact ⟨rfl, rfl⟩

/-- A cursor whose single filter's pointer `/x` resolves on no element of
the two-element backing sequence. -/
def c5ThrowState : ValueCursorState :=
  { wrapped := [.obj [], .obj []]
    limit := 1
    filters := [{ path := "/x", operator := .Equals, value := .num 1 }] }

/-- Counterexample to C5 as stated: with a filter whose JSON pointer does
not resolve (`/x` over `{}`), `select(2)` throws in the filter stage
before the slice — `items` is left as the full fresh copy of the backing
sequence (two elements, not the one-element slice `[(2-1)*1, 2*1)`) and
`current` stays 1 — so `select` does not set `items` to the slice for
every combination of filters. -/
theorem valueCursor_select_throwing_filter_skips_slice :
    (ValueCursor.select c5ThrowState 2).1.items = c5ThrowState.wrapped ∧
      (ValueCursor.select c5ThrowState 2).1.items ≠
        listSlice c5ThrowState.wrapped ((2 - 1) * c5ThrowState.limit) (2 * c5ThrowState.limit) ∧
      (ValueCursor.select c5ThrowState 2).2 = .error "Invalid reference token: x" ∧
      (ValueCursor.select c5ThrowState 2).1.current = 1 := by
  refine ⟨rfl, fun h => absurd (congrArg List.length h) (by decide), rfl, rfl⟩

/-- C5 (amended): whenever the filter stage evaluates without throwing
(every filter pointer reached resolves — in particular always when no
filters are set), `select(page)` stores as `items` the slice
`[(page-1)*limit, page*limit)` of the raw backing sequence `_wrapped` and
resolves with it; the searched/sorted intermediate is discarded, so the
result is independent of the sorters, the search terms, and of which
non-throwing filters are set.  When a filter pointer fails to resolve,
`select` throws before the slice (see the counterexample). -/
theorem valueCursor_select_slices_raw_backing (st : ValueCursorState) (page : Nat)
    (filtered : List JsVal)
    (hok : filterCollectionBy st.wrapped st.filters = .ok filtered) :
    (ValueCursor.select st page).1.items =
        listSlice st.wrapped ((page - 1) * st.limit) (page * st.limit) ∧
      (ValueCursor.select st page).2 =
        .ok (listSlice st.wrapped ((page - 1) * st.limit) (page * st.limit)) ∧
      (ValueCursor.select st page).1.current = page ∧
      ∀ (fs : List CollectionFilterDescriptor) (ss : List CollectionSortDescriptor)
        (tm : Option String) (filtered' : List JsVal),
        filterCollectionBy st.wrapped fs = .ok filtered' →
        (ValueCursor.select
            { st with filters := fs, sorters := ss, terms := tm } page).1.items =
          (ValueCursor.select st page).1.items := by
  have hsel : ∀ (st' : ValueCursorState) (fl : List JsVal),
      filterCollectionBy st'.wrapped st'.filters = .ok fl →
      (ValueCursor.select st' page).1.items =
          listSlice st'.wrapped ((page - 1) * st'.limit) (page * st'.limit) ∧
        (ValueCursor.select st' page).2 =
          .ok (listSlice st'.wrapped ((page - 1) * st'.limit) (page * st'.limit)) ∧
        (ValueCursor.select st' page).1.current = page := by
    intro st' fl hf
    unfold ValueCursor.select
    rw [hf]
    exact ⟨rfl, rfl, rfl⟩
  obtain ⟨hi, hr, hc⟩ := hsel st filtered hok
  refine ⟨hi, hr, hc, ?_⟩
  intro fs ss tm filtered' hf'
  have h2 := hsel { st with filters := fs, sorters := ss, terms := tm } filtered' hf'
  rw [h2.1, hi]

/-- A cursor with no filters over a two-element backing sequence with
limit 1, for the C5 witness. -/
def c5OkState : ValueCursorState :=
  { wrapped := [.num 1, .num 2]
    limit := 1 }

/-- Witness for the amended C5 at a concrete input: with the (empty)
filter list evaluating without a throw, `select(2)` stores the slice
`[1, 2)` of the raw backing sequence, resolves with it, and the outcome
ignores sorters, terms and any other non-throwing filters. -/
theorem valueCursor_select_slices_raw_backing_witness :
    (filterCollectionBy c5OkState.wrapped c5OkState.filters = .ok [.num 1, .num 2]) ∧
      ((ValueCursor.select c5OkState 2).1.items =
          listSlice c5OkState.wrapped ((2 - 1) * c5OkState.limit) (2 * c5OkState.limit) ∧
        (ValueCursor.select c5OkState 2).2 =
          .ok (listSlice c5OkState.wrapped ((2 - 1) * c5OkState.limit) (2 * c5OkState.limit)) ∧
        (ValueCursor.select c5OkState 2).1.current = 2 ∧
        ∀ (fs : List CollectionFilterDescriptor) (ss : List CollectionSortDescriptor)
          (tm : Option String) (filtered' : List JsVal),
          filterCollectionBy c5OkState.wrapped fs = .ok filtered' →
          (ValueCursor.select
              { c5OkState with filters := fs, sorters := ss, terms := tm } 2).1.items =
            (ValueCursor.select c5OkState 2).1.items) := by
  exact ⟨rfl, valueCursor_select_slices_raw_backing c5OkState 2 [.num 1, .num 2] rfl⟩

/-- A concrete filter descriptor for the copy-on-write claim. -/
def c8Filter : CollectionFilterDescriptor :=
  { path := "/A", operator := .Equals, value := .num 1 }

/-- A concrete sort descriptor for the copy-on-write claim. -/
def c8Sorter : CollectionSortDescriptor := { path := "/B", direction := 0 }

/-- C8: the claim states that after `filterBy(fs, true)` or
`sortBy(ss, true)` the internal list is a copy in which each supplied
descriptor occurs exactly once.  The `replace` branch assigns the caller's
array itself and, lacking an `else`, the subsequent push appends the same
descriptors onto it again: a replacing call with one descriptor leaves a
list holding it twice. -/
theorem valueCursor_replace_duplicates_descriptors :
    (ValueCursor.filterBy { wrapped := [] } (.inr [c8Filter]) true).filters =
        [c8Filter, c8Filter] ∧
      (ValueCursor.sortBy { wrapped := [] } (.inr [c8Sorter]) true).sorters =
        [c8Sorter, c8Sorter] := by
  exact ⟨rfl, rfl⟩

/-- A concrete filter descriptor for the clearSorters claim. -/
def c9Filter : CollectionFilterDescriptor :=
  { path := "/C", operator := .Contains, value := .str "x" }

/-- A concrete sort descriptor for the clearSorters claim. -/
def c9Sorter : CollectionSortDescriptor := { path := "/D", direction := 1 }

/-- C9: the claim states `clearSorters()` empties the sorters and leaves
the filters unchanged.  The method body assigns `this._filters = []`, so
it does the opposite: starting from one filter and one sorter, the sorter
survives and the filter list is emptied. -/
theorem valueCursor_clearSorters_empties_filters :
    (ValueCursor.clearSorters
          { wrapped := [], filters := [c9Filter], sorters := [c9Sorter] }).sorters =
        [c9Sorter] ∧
      (ValueCursor.clearSorters
          { wrapped := [], filters := [c9Filter], sorters := [c9Sorter] }).filters =
        [] := by
  exact ⟨rfl, rfl⟩

/-! ## The ValueCursor operation algebra (for the totalPages invariant) -/

/-- One public operation on a `ValueCursor`, with its arguments.  `select`
and `search` carry the caller's 1-indexed page. -/
inductive ValueCursorOp where
  | select (page : Nat)
  | next
  | previous
  | refresh
  | search (terms : String) (page : Nat)
  | filterBy (arg : CollectionFilterDescriptor ⊕ List CollectionFilterDescriptor) (replace : Bool)
  | clearFilter (arg : CollectionFilterDescriptor ⊕ List CollectionFilterDescriptor)
  | clearFilters
  | sortBy (arg : CollectionSortDescriptor ⊕ List CollectionSortDescriptor) (replace : Bool)
  | clearSort (arg : CollectionSortDescriptor ⊕ List CollectionSortDescriptor)
  | clearSorters
  | sortByColumn (name : String) (direction : Nat)
  | filterByColumn (name : String) (operator : CollectionFilterOperator) (value : JsVal)
  | setColumns (cols : List CursorColumnDefinition)
  | setLimit (value : Int)
  | setCurrent (value : Int)
  | setAutoReload (b : Bool)

/-- The state transition of each operation (an operation that throws or
rejects leaves the state as the embedded method does). -/
def ValueCursorOp.apply (st : ValueCursorState) : ValueCursorOp → ValueCursorState
  | .select page => (ValueCursor.select st page).1
  | .next => (ValueCursor.next st).1
  | .previous => (ValueCursor.previous st).1
  | .refresh => (ValueCursor.refresh st).1
  | .search terms page => ValueCursor.search st terms page
  | .filterBy arg replace => ValueCursor.filterBy st arg replace
  | .clearFilter arg => ValueCursor.clearFilter st arg
  | .clearFilters => ValueCursor.clearFilters st
  | .sortBy arg replace => ValueCursor.sortBy st arg replace
  | .clearSort arg => ValueCursor.clearSort st arg
  | .clearSorters => ValueCursor.clearSorters st
  | .sortByColumn name direction => ValueCursor.sortByColumn st name direction
  | .filterByColumn name operator value => ValueCursor.filterByColumn st name operator value
  | .setColumns cols => ValueCursor.setColumns st cols
  | .setLimit value => ValueCursor.setLimit st value
  | .setCurrent value => ValueCursor.setCurrent st value
  | .setAutoReload b => ValueCursor.setAutoReload st b

/-- Validity of an operation's arguments: pages passed to `select`/`search`
are 1-indexed (the documented calling convention; the setters validate
their own arguments). -/
def ValueCursorOp.validb : ValueCursorOp → Bool
  | .select page => decide (1 ≤ page)
  | .search _ page => decide (1 ≤ page)
  | _ => true

/-- The invariant behind C10: `totalPages` stays at its initial `1` and the
current page stays 1-indexed. -/
def vcInv (st : ValueCursorState) : Prop :=
  st.totalPages = 1 ∧ 1 ≤ st.current

/-- `select` never writes `_totalPages`; it stores the requested page on
the normal path and leaves `current` alone when the filter stage throws. -/
theorem vcInv_select (st : ValueCursorState) (page : Nat) (h : st.totalPages = 1)
    (hcur : 1 ≤ st.current) (hp : 1 ≤ page) : vcInv (ValueCursor.select st page).1 := by
  unfold ValueCursor.select
  cases filterCollectionBy st.wrapped st.filters with
  | error e => exact ⟨h, hcur⟩
  | ok filtered => exact ⟨h, hp⟩

/-- Every operation preserves the invariant: no method of `ValueCursor`
assigns `_totalPages`. -/
theorem vcInv_apply (st : ValueCursorState) (op : ValueCursorOp) (h : vcInv st)
    (hv : op.validb = true) : vcInv (op.apply st) := by
  obtain ⟨h1, h2⟩ := h
  cases op with
  | select page =>
    simp [ValueCursorOp.validb] at hv
    exact vcInv_select st page h1 h2 hv
  | next =>
    simp only [ValueCursorOp.apply, ValueCursor.next]
    by_cases hn : ValueCursor.hasNext st = true
    · simp [hn]
      exact vcInv_select st _ h1 h2 (by omega)
    · simp [Bool.not_eq_true] at hn
      simp [hn]
      exact ⟨h1, h2⟩
  | previous =>
    simp only [ValueCursorOp.apply, ValueCursor.previous]
    by_cases hp : ValueCursor.hasPrevious st = true
    · simp [hp]
      refine vcInv_select st _ h1 h2 ?_
      simp [ValueCursor.hasPrevious] at hp
      omega
    · simp [Bool.not_eq_true] at hp
      simp [hp]
      exact ⟨h1, h2⟩
  | refresh => exact vcInv_select st _ h1 h2 h2
  | search terms page => exact ⟨h1, h2⟩
  | filterBy arg replace => exact ⟨h1, h2⟩
  | clearFilter arg => exact ⟨h1, h2⟩
  | clearFilters => exact ⟨h1, h2⟩
  | sortBy arg replace => exact ⟨h1, h2⟩
  | clearSort arg => exact ⟨h1, h2⟩
  | clearSorters => exact ⟨h1, h2⟩
  | sortByColumn name direction =>
    simp only [ValueCursorOp.apply, ValueCursor.sortByColumn]
    cases st.columns.find? (fun x => x.name == name) with
    | none => exact ⟨h1, h2⟩
    | some col =>
      by_cases hs : col.sortable <;> simp [hs] <;> exact ⟨h1, h2⟩
  | filterByColumn name operator value =>
    simp only [ValueCursorOp.apply, ValueCursor.filterByColumn]
    cases st.columns.find? (fun x => x.name == name) with
    | none => exact ⟨h1, h2⟩
    | some col =>
      by_cases hs : col.filterable <;> simp [hs] <;> exact ⟨h1, h2⟩
  | setColumns cols => exact ⟨h1, h2⟩
  | setLimit value =>
    simp only [ValueCursorOp.apply, ValueCursor.setLimit]
    by_cases hl : value < 1
    · simp [hl]; exact ⟨h1, h2⟩
    · simp [hl]
      by_cases ha : st.autoReload <;> simp [ha]
      · exact vcInv_select _ _ h1 h2 h2
      · exact ⟨h1, h2⟩
  | setCurrent value =>
    simp only [ValueCursorOp.apply, ValueCursor.setCurrent]
    by_cases hl : value < 1
    · simp [hl]; exact ⟨h1, h2⟩
    · simp [hl]
      by_cases ha : st.autoReload <;> simp [ha]
      · exact vcInv_select _ _ h1 h2 (by omega)
      · exact ⟨h1, h2⟩
  | setAutoReload b => exact ⟨h1, h2⟩

/-- With no filters set, the filter stage keeps every element and cannot
throw. -/
theorem filterCollectionBy_nil (l : List JsVal) : filterCollectionBy l [] = .ok l := by
  induction l with
  | nil => rfl
  | cons x xs ih =>
    simp [filterCollectionBy, elementPasses, ih]
    rfl

/-- A freshly constructed cursor satisfies the invariant (its initial
filter list is empty, so the constructor's `select(1)` takes the normal
path). -/
theorem vcInv_construct (wrapped : List JsVal)
    (columns : List CursorColumnDefinition) :
    vcInv (ValueCursor.construct wrapped columns) := by
  exact vcInv_select _ 1 rfl (le_refl 1) (le_refl 1)

/-- The invariant is preserved along any valid operation sequence. -/
theorem vcInv_foldl (ops : List ValueCursorOp) (st : ValueCursorState) (h : vcInv st)
    (hv : ∀ op ∈ ops, ValueCursorOp.validb op = true) :
    vcInv (ops.foldl ValueCursorOp.apply st) := by
  induction ops generalizing st with
  | nil => exact h
  | cons op rest ih =>
    exact ih _ (vcInv_apply st op h (hv op (by simp))) (fun o ho => hv o (by simp [ho]))

/-- A `ValueCursor` after construction and an arbitrary operation
sequence. -/
def runValueCursor (wrapped : List JsVal) (columns : List CursorColumnDefinition)
    (ops : List ValueCursorOp) : ValueCursorState :=
  ops.foldl ValueCursorOp.apply (ValueCursor.construct wrapped columns)

/-- C10: for every backing sequence, column set and valid operation
sequence, `totalPages` is still `1` (no operation recomputes it from
`count` and `limit`), so `hasNext()` is false and `next()` rejects with
`'This the last page!'` leaving the state unchanged — regardless of how
the backing length compares to the limit. -/
theorem valueCursor_totalPages_always_one (wrapped : List JsVal)
    (columns : List CursorColumnDefinition) (ops : List ValueCursorOp)
    (hv : ∀ op ∈ ops, ValueCursorOp.validb op = true) :
    (runValueCursor wrapped columns ops).totalPages = 1 ∧
      ValueCursor.hasNext (runValueCursor wrapped columns ops) = false ∧
      (ValueCursor.next (runValueCursor wrapped columns ops)).2 =
        .error "This the last page!" ∧
      (ValueCursor.next (runValueCursor wrapped columns ops)).1 =
        runValueCursor wrapped columns ops := by
  have h : vcInv (runValueCursor wrapped columns ops) :=
    vcInv_foldl ops (ValueCursor.construct wrapped columns)
      (vcInv_construct wrapped columns) hv
  obtain ⟨h1, h2⟩ := h
  have hn : ValueCursor.hasNext (runValueCursor wrapped columns ops) = false := by
    simp [ValueCursor.hasNext]
    omega
  refine ⟨h1, hn, ?_, ?_⟩ <;> simp [ValueCursor.next, hn]

/-- Witness for C10 at a concrete input: a two-element backing sequence
whose limit is lowered to 1 (so the backing holds more elements than one
page), where `totalPages` is still 1, `hasNext()` is false and `next()`
rejects. -/
theorem valueCursor_totalPages_always_one_witness :
    (∀ op ∈ [ValueCursorOp.setLimit 1], ValueCursorOp.validb op = true) ∧
      (runValueCursor [.str "a", .str "b"] [] [ValueCursorOp.setLimit 1]).limit <
        (runValueCursor [.str "a", .str "b"] [] [ValueCursorOp.setLimit 1]).wrapped.length ∧
      ((runValueCursor [.str "a", .str "b"] [] [ValueCursorOp.setLimit 1]).totalPages = 1 ∧
        ValueCursor.hasNext (runValueCursor [.str "a", .str "b"] [] [ValueCursorOp.setLimit 1]) = false ∧
        (ValueCursor.next (runValueCursor [.str "a", .str "b"] [] [ValueCursorOp.setLimit 1])).2 =
          .error "This the last page!" ∧
        (ValueCursor.next (runValueCursor [.str "a", .str "b"] [] [ValueCursorOp.setLimit 1])).1 =
          runValueCursor [.str "a", .str "b"] [] [ValueCursorOp.setLimit 1]) := by
  refine ⟨by decide, by decide, valueCursor_totalPages_always_one _ _ _ (by decide)⟩

/-! ## EndpointCursor (`endpoint-cursor.ts`)

`select` is embedded as a function of the cursor state, the call
arguments, and the outcome of the one agent request it may issue; the
injectable `paginationInfoExtractor` is a function parameter, as in the
source, and may throw (`Except.error`).  Request-payload construction
(`genericPaginationRequestGenerator` output, search-term insertion) has no
effect on state, result, events or request count and is not modelled. -/

/-- What `select` reads off the extractor's result: `info.items`,
`info.totalPages`, `info.count`, all of which the heuristic extractor may
leave null. -/
structure ExtractedInfo (T : Type) where
  items : Option (List T)
  totalPages : Option Int
  count : Option Int

/-- The mutable fields of an `EndpointCursor<T>`, with the source's
initializers as defaults.  `count` and `totalPages` are nullable because
`select` assigns the extractor's raw fields to them.  `loadingState` is
declared `readonly` and initialized to `Uninitialized`; no method of the
class reassigns it. -/
structure EndpointCursorState (T : Type) where
  limit : Int := 40
  current : Int := 1
  count : Option Int := some 0
  totalPages : Option Int := some 1
  items : List T := []
  terms : Option String := none
  loadingState : CursorLoadingState := .Uninitialized
  autoReload : Bool := false

/-- The events an `EndpointCursor` emits. -/
inductive EndpointCursorEvent (T ε : Type) where
  | beforePageChange (page : Int)
  | afterPageChange (page : Int) (items : List T)
  | errorEvent (cause : ε)

/-- How the promise returned by `select` settles.  A successful fetch
resolves with `info.items` as returned by the extractor (possibly null),
while the page-skip path resolves with the current items. -/
inductive SelectSettled (T ε : Type) where
  | resolved (items : Option (List T))
  | rejectedInvalidPage
  | rejectedNoLink
  | rejected (cause : ε)

/-- Everything observable about one `select` call: the state after the
call, the settled promise, the events emitted (in order) and the number of
agent requests issued. -/
structure SelectOutcome (T ε : Type) where
  state : EndpointCursorState T
  result : SelectSettled T ε
  events : List (EndpointCursorEvent T ε)
  requests : Nat

/-- Embedding of `EndpointCursor.select(page, forceReload)` (lines
200-263).  `page` is an integer (`_.isInteger` holds); pages `< 1` reject
without a request.  `page === current && !forceReload` resolves with the
held items.  `linkFound` is whether the schema resolves a link for the
cursor.  Otherwise `beforePageChange` is emitted and the agent executes:
on rejection the error is emitted and rethrown with the state untouched;
on response, `_current = page` is assigned first, then the extractor runs
— if it throws, the error path fires with `current` already updated —
else `items` (null coalesced to `[]`), `totalPages` and `count` are
replaced, `afterPageChange` fires and the promise resolves with
`info.items`. -/
def EndpointCursor.select {T ε : Type} (st : EndpointCursorState T) (page : Int)
    (force : Bool) (linkFound : Bool) (agent : Except ε SchemaAgentResponse)
    (extract : SchemaAgentResponse → Except ε (ExtractedInfo T)) :
    SelectOutcome T ε :=
  if page < 1 then ⟨st, .rejectedInvalidPage, [], 0⟩
  else if page = st.current ∧ force = false then ⟨st, .resolved (some st.items), [], 0⟩
  else if linkFound = false then ⟨st, .rejectedNoLink, [], 0⟩
  else
    match agent with
    | .error err =>
      ⟨st, .rejected err, [.beforePageChange page, .errorEvent err], 1⟩
    | .ok response =>
      match extract response with
      | .error err =>
        ⟨{ st with current := page }, .rejected err,
          [.beforePageChange page, .errorEvent err], 1⟩
      | .ok info =>
        let newItems := info.items.getD []
        ⟨{ st with
            current := page
            items := newItems
            totalPages := info.totalPages
            count := info.count },
          .resolved info.items,
          [.beforePageChange page, .afterPageChange page newItems], 1⟩

/-- C6 (amended): when the agent request itself rejects, `select` rejects
with the cause, emits `beforePageChange` then `error`, and the state —
`current`, `items`, `totalPages`, `count` — is exactly what it was.  When
the agent succeeds but response processing (the extractor) throws, the
rejection and events are the same and `items`/`totalPages`/`count` are
unchanged, but `current` has already been set to the requested page. -/
theorem endpointCursor_select_failure_leaves_state {T ε : Type}
    (st : EndpointCursorState T) (page : Int) (force : Bool) (e : ε)
    (extract : SchemaAgentResponse → Except ε (ExtractedInfo T))
    (hpage : 1 ≤ page) (hrun : page ≠ st.current ∨ force = true) :
    ((EndpointCursor.select st page force true (.error e) extract).state = st ∧
      (EndpointCursor.select st page force true (.error e) extract).result = .rejected e ∧
      (EndpointCursor.select st page force true (.error e) extract).events =
        [.beforePageChange page, .errorEvent e]) ∧
    ∀ resp : SchemaAgentResponse, extract resp = .error e →
      (EndpointCursor.select st page force true (.ok resp) extract).state =
          { st with current := page } ∧
        (EndpointCursor.select st page force true (.ok resp) extract).result = .rejected e ∧
        (EndpointCursor.select st page force true (.ok resp) extract).events =
          [.beforePageChange page, .errorEvent e] := by
  have h1 : ¬(page < 1) := by omega
  have h2 : ¬(page = st.current ∧ force = false) := by
    rcases hrun with h | h
    · exact fun hc => h hc.1
    · exact fun hc => by simp [h] at hc
  constructor
  · simp [EndpointCursor.select, h1, h2]
  · intro resp hresp
    simp [EndpointCursor.select, h1, h2, hresp]

/-- `ExtractedInfo` view of the heuristic extractor's accumulator, as
`select` consumes it (`items` must be an array to have been stored;
`totalPages`/`count` must be finite numbers). -/
def extractedOfAccum (acc : PagAccum) : ExtractedInfo JsVal :=
  { items :=
      match acc.items with
      | some (.arr xs) => some xs
      | _ => none
    totalPages :=
      match acc.totalPages with
      | some (.num n) => some n
      | _ => none
    count :=
      match acc.count with
      | some (.num n) => some n
      | _ => none }

/-- The default `paginationInfoExtractor` as `select` uses it. -/
def genericExtract (resp : SchemaAgentResponse) : Except Unit (ExtractedInfo JsVal) :=
  (genericPaginationInfoExtractor resp).map extractedOfAccum

/-- A freshly constructed cursor state (all initializers). -/
def c6State : EndpointCursorState JsVal := {}

/-- Counterexample to C6 as stated: with the default extractor and a
successful agent response whose body is `null` (a JSON value), response
processing throws (`data[key]` on `null`), the promise rejects — but the
state is *not* what it was before the call: `current` has moved from 1 to
the requested page 2, because `this._current = page` runs before the
extractor. -/
theorem endpointCursor_select_processing_failure_mutates_state :
    (EndpointCursor.select c6State 2 false true (.ok ⟨.null, .obj []⟩) genericExtract).state.current = 2 ∧
      c6State.current = 1 ∧
      (EndpointCursor.select c6State 2 false true (.ok ⟨.null, .obj []⟩) genericExtract).result = .rejected () ∧
      (EndpointCursor.select c6State 2 false true (.ok ⟨.null, .obj []⟩) genericExtract).state ≠ c6State := by
  refine ⟨rfl, rfl, rfl, fun h => absurd (congrArg EndpointCursorState.current h) (by decide)⟩

/-- A fresh cursor over integer items, for the C6 witness. -/
def c6AgentFailState : EndpointCursorState Int := {}

/-- An extractor that always throws, standing for any failing response
processing. -/
def c6FailExtract : SchemaAgentResponse → Except Unit (ExtractedInfo Int) :=
  fun _ => .error ()

/-- Witness for the amended C6 at a concrete input (page 2 requested from
a fresh cursor): both hypotheses hold and both failure modes behave as
the amended claim states. -/
theorem endpointCursor_select_failure_leaves_state_witness :
    ((1 : Int) ≤ 2 ∧ ((2 : Int) ≠ c6AgentFailState.current ∨ false = true)) ∧
      (((EndpointCursor.select c6AgentFailState 2 false true (.error ()) c6FailExtract).state = c6AgentFailState ∧
        (EndpointCursor.select c6AgentFailState 2 false true (.error ()) c6FailExtract).result = .rejected () ∧
        (EndpointCursor.select c6AgentFailState 2 false true (.error ()) c6FailExtract).events =
          [.beforePageChange 2, .errorEvent ()]) ∧
      ∀ resp : SchemaAgentResponse, c6FailExtract resp = .error () →
        (EndpointCursor.select c6AgentFailState 2 false true (.ok resp) c6FailExtract).state =
            { c6AgentFailState with current := 2 } ∧
          (EndpointCursor.select c6AgentFailState 2 false true (.ok resp) c6FailExtract).result = .rejected () ∧
          (EndpointCursor.select c6AgentFailState 2 false true (.ok resp) c6FailExtract).events =
            [.beforePageChange 2, .errorEvent ()]) := by
  exact ⟨⟨by decide, Or.inl (by decide)⟩,
    endpointCursor_select_failure_leaves_state c6AgentFailState 2 false () c6FailExtract
      (by decide) (Or.inl (by decide))⟩

/-! ## EndpointCursor.all (`endpoint-cursor.ts` lines 275-309) -/

/-- The pages visited by `for (var i = 2; i <= this.totalPages; i++)`:
`[2, ..., totalPages]`; with a null `totalPages` the comparison is false
at once (JS coerces `null` to 0) and the list is empty. -/
def pagesFrom2 : Option Int → List Int
  | none => []
  | some n => List.map (fun k : Nat => (2 : Int) + (k : Int)) (List.range (n - 1).toNat)

/-- Environment of one `all()` call: whether the schema resolves a link,
the items each page's successful `select(i)` resolves with (one agent
request per non-skipped select), and the snapshots `all` continues from
in its non-`Ready` branches — the payload of the awaited
`afterPageChange` event with the state it left, and the state after the
`select(1)` issued from an uninitialized cursor. -/
structure AllEnv (T : Type) where
  linkFound : Bool := true
  fetch : Int → List T
  eventItems : List T := []
  eventCurrent : Int := 1
  eventTotalPages : Option Int := none
  firstLoadItems : List T := []
  firstLoadTotalPages : Option Int := none

/-- The continuation `all()` runs once its first-page promise resolves:
`promises = [Promise.resolve(this.items)]` plus `this.select(i)` for
`i = 2 .. totalPages`, all issued synchronously (so against the current
page at that moment), then `Promise.all` flattened in page order.  A
`select(i)` with `i` equal to the current page skips (resolving with the
current items, no request); with no link every non-skipped select rejects
and so does `all`.  Returns (agent requests issued, settled result). -/
def allContinuation {T : Type} (itemsNow : List T) (currentNow : Int)
    (tpNow : Option Int) (linkFound : Bool) (fetch : Int → List T) :
    Nat × Except Unit (List T) :=
  let pages := pagesFrom2 tpNow
  let requested := pages.filter (fun i => !(i == currentNow))
  if linkFound = false ∧ requested ≠ [] then (0, .error ())
  else
    (requested.length,
      .ok (itemsNow ++ (pages.map (fun i => if i = currentNow then itemsNow else fetch i)).flatten))

/-- Embedding of `EndpointCursor.all()`: past `Uninitialized` the held
items are reused as the first page — directly when `Ready`, else from the
next `afterPageChange` event; from `Uninitialized` the first page comes
from `this.select(1)`, which itself skips (no request) when `current` is
already 1 and not forced.  The unused `limit` parameter of the source is
omitted. -/
def EndpointCursor.all {T : Type} (st : EndpointCursorState T) (env : AllEnv T) :
    Nat × Except Unit (List T) :=
  if st.loadingState.toNat > CursorLoadingState.toNat .Uninitialized then
    if st.loadingState = .Ready then
      allContinuation st.items st.current st.totalPages env.linkFound env.fetch
    else
      allContinuation env.eventItems env.eventCurrent env.eventTotalPages env.linkFound env.fetch
  else
    if st.current = 1 then
      allContinuation st.items st.current st.totalPages env.linkFound env.fetch
    else if env.linkFound = false then (0, .error ())
    else
      let c := allContinuation env.firstLoadItems 1 env.firstLoadTotalPages env.linkFound env.fetch
      (1 + c.1, c.2)

/-- C7: for a cursor already `Ready` holding page 1 with `totalPages = n`,
`all()` reuses the held items as the first page and issues exactly `n - 1`
agent requests (pages 2..n, none for page 1), so together with the single
request that loaded page 1 exactly `n` requests occur over the
collection's lifetime; the result is the pages concatenated in order. -/
theorem endpointCursor_all_ready_requests {T : Type} (st : EndpointCursorState T)
    (env : AllEnv T) (n : Int)
    (hready : st.loadingState = .Ready) (hcur : st.current = 1)
    (htp : st.totalPages = some n) (hn : 1 ≤ n) (hlink : env.linkFound = true) :
    (EndpointCursor.all st env).1 = (n - 1).toNat ∧
      1 + (EndpointCursor.all st env).1 = n.toNat ∧
      (EndpointCursor.all st env).2 =
        .ok (st.items ++ ((pagesFrom2 (some n)).map env.fetch).flatten) := by
  have hpages2 : ∀ i ∈ pagesFrom2 (some n), (2 : Int) ≤ i := by
    intro i hi
    simp [pagesFrom2] at hi
    obtain ⟨k, hk, rfl⟩ := hi
    omega
  have hfilter : (pagesFrom2 (some n)).filter (fun i => !(i == (1 : Int))) = pagesFrom2 (some n) := by
    apply List.filter_eq_self.mpr
    intro i hi
    have := hpages2 i hi
    simp
    omega
  have hmap : (pagesFrom2 (some n)).map (fun i => if i = (1 : Int) then st.items else env.fetch i) =
      (pagesFrom2 (some n)).map env.fetch := by
    apply List.map_congr_left
    intro i hi
    have h2 := hpages2 i hi
    have hne : i ≠ 1 := by omega
    simp [hne]
  have hlen : (pagesFrom2 (some n)).length = (n - 1).toNat := by
    rw [show pagesFrom2 (some n) =
        List.map (fun k : Nat => (2 : Int) + (k : Int)) (List.range (n - 1).toNat) from rfl,
      List.length_map, List.length_range]
  have hall : EndpointCursor.all st env =
      allContinuation st.items 1 (some n) env.linkFound env.fetch := by
    rw [EndpointCursor.all]
    rw [if_pos (by rw [hready]; decide)]
    rw [if_pos hready, hcur, htp]
  have hcond : ¬(env.linkFound = false ∧
      (pagesFrom2 (some n)).filter (fun i => !(i == (1 : Int))) ≠ []) := by
    rw [hlink]
    rintro ⟨h, -⟩
    exact absurd h (by decide)
  have hcont : allContinuation st.items 1 (some n) env.linkFound env.fetch =
      ((pagesFrom2 (some n)).length,
        .ok (st.items ++ ((pagesFrom2 (some n)).map env.fetch).flatten)) := by
    simp only [allContinuation]
    rw [if_neg hcond, hfilter, hmap]
  rw [hall, hcont]
  refine ⟨hlen, ?_, rfl⟩
  rw [hlen]
  omega

/-- A `Ready` cursor holding page 1 of 3, for the C7 witness. -/
def c7State : EndpointCursorState Int :=
  { loadingState := .Ready
    current := 1
    totalPages := some 3
    items := [10] }

/-- An environment whose page `i` fetch resolves with `[i]`. -/
def c7Env : AllEnv Int := { fetch := fun i => [i] }

/-- Witness for C7 at a concrete input: a `Ready` cursor with 3 total
pages issues 2 requests from `all()` (so 3 in total with the page-1 load)
and resolves with pages 1, 2, 3 concatenated in order. -/
theorem endpointCursor_all_ready_requests_witness :
    (c7State.loadingState = .Ready ∧ c7State.current = 1 ∧
        c7State.totalPages = some 3 ∧ (1 : Int) ≤ 3 ∧ c7Env.linkFound = true) ∧
      (EndpointCursor.all c7State c7Env).1 = 2 ∧
      (EndpointCursor.all c7State c7Env).2 = .ok [10, 2, 3] ∧
      ((EndpointCursor.all c7State c7Env).1 = ((3 : Int) - 1).toNat ∧
        1 + (EndpointCursor.all c7State c7Env).1 = (3 : Int).toNat ∧
        (EndpointCursor.all c7State c7Env).2 =
          .ok (c7State.items ++ ((pagesFrom2 (some 3)).map c7Env.fetch).flatten)) := by
  exact ⟨⟨rfl, rfl, rfl, by decide, rfl⟩, rfl, rfl,
    endpointCursor_all_ready_requests c7State c7Env 3 rfl rfl rfl (by decide) rfl⟩
